import Mathlib

/- Verification of the AI-Call-Feedback analyze-call route
(src/app/api/analyze-call/route.ts). The development shallowly embeds the
rubric table, the free-text score parser `parseNumericScore`, and the POST
request orchestrator as pure Lean functions, and proves the specified
properties about them. JS numbers holding integer scores are modelled as
`Int`, JS strings as `String` (inspected through their character lists),
and the two external capabilities (Whisper transcription and chat
completion) as oracle functions supplied to the orchestrator. -/

namespace CallFeedback

/-- The `inputType` field of a rubric parameter: `"PASS_FAIL" | "SCORE"`. -/
inductive InputType where
  | PASS_FAIL
  | SCORE
deriving DecidableEq

/-- One rubric record (interface `CallEvaluationParameter` in the source). -/
structure CallEvaluationParameter where
  key : String
  name : String
  weight : Nat
  desc : String
  inputType : InputType
deriving DecidableEq

/-- The fixed ordered rubric table `callEvaluationParameters` from the source. -/
def callEvaluationParameters : List CallEvaluationParameter :=
  [ { key := "greeting", name := "Greeting", weight := 5,
      desc := "Call opening within 5 seconds", inputType := InputType.PASS_FAIL },
    { key := "collectionUrgency", name := "Collection Urgency", weight := 15,
      desc := "Create urgency, cross-questioning", inputType := InputType.SCORE },
    { key := "rebuttalCustomerHandling", name := "Rebuttal Handling", weight := 15,
      desc := "Address penalties, objections", inputType := InputType.SCORE },
    { key := "callEtiquette", name := "Call Etiquette", weight := 15,
      desc := "Tone, empathy, clear speech", inputType := InputType.SCORE },
    { key := "callDisclaimer", name := "Call Disclaimer", weight := 5,
      desc := "Take permission before ending", inputType := InputType.PASS_FAIL },
    { key := "correctDisposition", name := "Correct Disposition", weight := 10,
      desc := "Use correct category with remark", inputType := InputType.PASS_FAIL },
    { key := "callClosing", name := "Call Closing", weight := 5,
      desc := "Thank the customer properly", inputType := InputType.PASS_FAIL },
    { key := "fatalIdentification", name := "Identification", weight := 5,
      desc := "Missing agent/customer info", inputType := InputType.PASS_FAIL },
    { key := "fatalTapeDiscloser", name := "Tape Disclosure", weight := 10,
      desc := "Inform customer about recording", inputType := InputType.PASS_FAIL },
    { key := "fatalToneLanguage", name := "Tone & Language", weight := 15,
      desc := "No abusive or threatening speech", inputType := InputType.PASS_FAIL } ]

/-- Boolean test that a list of characters is a prefix of another
(JS `String.prototype.startsWith` on the character level). -/
def isPrefixL : List Char → List Char → Bool
  | [], _ => true
  | _ :: _, [] => false
  | p :: ps, c :: cs => p == c && isPrefixL ps cs

/-- JS `String.prototype.includes`: `pat` occurs contiguously in `hay`. -/
def containsSub (hay pat : List Char) : Bool :=
  match hay with
  | [] => pat.isEmpty
  | _ :: rest => isPrefixL pat hay || containsSub rest pat

/-- Whether a character list begins with a decimal digit. -/
def headIsDigit : List Char → Bool
  | [] => false
  | c :: _ => c.isDigit

/-- Longest digit run at the front of a character list (maximal munch of a
regex `\d+` once its first digit matched). -/
def takeDigits (l : List Char) : List Char := l.takeWhile Char.isDigit

/-- Leftmost match of the JS regex scan `text.match(new RegExp(...))` for an
optional minus sign followed by one or more digits: try each start position
from the left; at a digit take the maximal digit run; at a minus sign
immediately followed by a digit take the sign plus the maximal digit run. -/
def firstIntMatch : List Char → Option (List Char)
  | [] => none
  | c :: rest =>
    if c.isDigit then some (c :: takeDigits rest)
    else if c == '-' && headIsDigit rest then some ('-' :: takeDigits rest)
    else firstIntMatch rest

/-- Value of a run of decimal digit characters. -/
def digitsVal (l : List Char) : Nat :=
  l.foldl (fun acc c => 10 * acc + (c.toNat - 48)) 0

/-- JS `parseInt(tok, 10)` on a token produced by `firstIntMatch` (an
optional minus sign followed by digits). -/
def parseIntTok (tok : List Char) : Int :=
  match tok with
  | '-' :: ds => -(digitsVal ds : Int)
  | ds => (digitsVal ds : Int)

/-- The integer candidate extracted from a reply text, when one exists:
`parseInt` of the leftmost signed-integer substring. -/
def firstIntVal (t : String) : Option Int :=
  (firstIntMatch t.data).map parseIntTok

/-- JS `String.prototype.toLowerCase` (ASCII fragment), character-wise. -/
def lowerStr (t : String) : List Char := t.data.map Char.toLower

/-- `true` when no character of the list is a decimal digit. -/
def hasNoDigits (l : List Char) : Bool := l.all (fun c => !c.isDigit)

/-- Fuel-driven decimal printer core: pushes the digits of `n` (most
significant first) in front of `acc`. -/
def toDigitsCore (fuel n : Nat) (acc : List Char) : List Char :=
  match fuel with
  | 0 => acc
  | fuel + 1 =>
    if n < 10 then Char.ofNat (48 + n % 10) :: acc
    else toDigitsCore fuel (n / 10) (Char.ofNat (48 + n % 10) :: acc)

/-- Decimal representation of a natural number (JS `String(weight)` for the
positive integer weights of the rubric). -/
def natToDecimal (n : Nat) : List Char := toDigitsCore (n + 1) n []

/-- JS `String(n)` as a Lean string. -/
def natStr (n : Nat) : String := String.mk (natToDecimal n)

/-- JS `llmResponseText.startsWith("ERROR_")`: the guard deciding the
error-sentinel branch of the parser. -/
def isErrorReply (t : String) : Bool := isPrefixL ("ERROR_").data t.data

/-- Shallow embedding of `parseNumericScore(llmResponseText, weight,
inputType)` from src/app/api/analyze-call/route.ts: error-sentinel guard,
then leftmost signed-integer extraction, then a keyword fallback for
PASS_FAIL, then binary collapse (PASS_FAIL) or min/max clamping (SCORE). -/
def parseNumericScore (llmResponseText : String) (weight : Nat)
    (inputType : InputType) : Int :=
  if isErrorReply llmResponseText then 0
  else
    match firstIntMatch llmResponseText.data with
    | some tok =>
      match inputType with
      | InputType.PASS_FAIL => if 0 < parseIntTok tok then (weight : Int) else 0
      | InputType.SCORE => max 0 (min (parseIntTok tok) (weight : Int))
    | none =>
      match inputType with
      | InputType.PASS_FAIL =>
        if containsSub (lowerStr llmResponseText) (("pass").data)
            || containsSub (lowerStr llmResponseText) (("yes").data)
            || containsSub (lowerStr llmResponseText) (natToDecimal weight) then
          (weight : Int)
        else if containsSub (lowerStr llmResponseText) (("fail").data)
            || containsSub (lowerStr llmResponseText) (("no").data)
            || containsSub (lowerStr llmResponseText) (("0").data) then 0
        else 0
      | InputType.SCORE => 0

/-- The `inputType` string interpolated into the scoring prompt. -/
def inputTypeStr : InputType → String
  | InputType.PASS_FAIL => "PASS_FAIL"
  | InputType.SCORE => "SCORE"

/-- The scoring prompt template (`scorePrompt` in the source POST loop). -/
def scorePrompt (p : CallEvaluationParameter) (transcript : String) : String :=
  "You are a call quality analyst. Based on the following transcript, evaluate the parameter: \"" ++
    p.name ++ "\".\nDescription: \"" ++ p.desc ++
    "\".\nThe transcript is:\n\"\"\"\n" ++ transcript ++
    "\n\"\"\"\nThis parameter is of type \"" ++ inputTypeStr p.inputType ++
    "\".\nIf type is \"PASS_FAIL\", the score must be either 0 (Fail) or " ++
    natStr p.weight ++ " (Pass).\nIf type is \"SCORE\", the score must be a number between 0 and " ++
    natStr p.weight ++ ".\nStrictly provide only the numerical score. Score:"

/-- The overall-feedback prompt template (`feedbackPrompt` in the source). -/
def feedbackPrompt (transcript : String) : String :=
  "Based on the following call transcript, provide a concise overall feedback (1-2 sentences) for the agent's performance.\nTranscript:\n\"\"\"\n" ++
    transcript ++ "\n\"\"\"\nOverall Feedback:"

/-- The observation prompt template (`observationPrompt` in the source). -/
def observationPrompt (transcript : String) : String :=
  "Based on the following call transcript, provide a concise observation (1-2 sentences) about key events or customer sentiments.\nTranscript:\n\"\"\"\n" ++
    transcript ++ "\n\"\"\"\nObservation:"

/-- Fixed degraded-mode feedback notice set when a quota error occurred
during scoring. -/
def degradedFeedback : String :=
  "Overall feedback not generated due to API quota limits reached during scoring."

/-- Fixed degraded-mode observation notice set when a quota error occurred
during scoring. -/
def degradedObservation : String :=
  "Observations not generated due to API quota limits reached during scoring."

/-- Fallback feedback string when the feedback completion call itself errors. -/
def failedFeedback : String := "Overall feedback generation failed due to API error."

/-- Fallback observation string when the observation completion call itself
errors. -/
def failedObservation : String := "Observation generation failed due to API error."

/-- Result of the post-transcription analysis: the scores association list in
rubric order, the two summary strings, and the completion-capability calls
made, in order (each element one prompt sent to the completion API). -/
structure AnalysisOutcome where
  scores : List (String × Int)
  overallFeedback : String
  observation : String
  calls : List String
deriving DecidableEq

/-- One iteration of the scoring loop of POST: call the completion capability
with the scoring prompt, then either record a zero score and set the sticky
quota flag (reply `"ERROR_QUOTA"`), record a zero score (reply
`"ERROR_API"`), or parse the reply. The accumulator carries the scores so
far, the quota flag, and the prompts sent so far. -/
def scoringStep (completion : String → String) (transcript : String)
    (acc : List (String × Int) × Bool × List String)
    (p : CallEvaluationParameter) : List (String × Int) × Bool × List String :=
  if completion (scorePrompt p transcript) = "ERROR_QUOTA" then
    (acc.1 ++ [(p.key, 0)], true, acc.2.2 ++ [scorePrompt p transcript])
  else if completion (scorePrompt p transcript) = "ERROR_API" then
    (acc.1 ++ [(p.key, 0)], acc.2.1, acc.2.2 ++ [scorePrompt p transcript])
  else
    (acc.1 ++ [(p.key, parseNumericScore (completion (scorePrompt p transcript)) p.weight p.inputType)],
      acc.2.1, acc.2.2 ++ [scorePrompt p transcript])

/-- The analysis phase of POST after a successful transcription: score the
ten rubric parameters sequentially, then either emit the fixed degraded-mode
notices (quota flag set, no further completion calls) or issue the feedback
and observation completion calls with their own error fallbacks. -/
def runAnalysis (completion : String → String) (transcript : String) :
    AnalysisOutcome :=
  let s := callEvaluationParameters.foldl (scoringStep completion transcript)
    ([], false, [])
  if s.2.1 then
    { scores := s.1, overallFeedback := degradedFeedback,
      observation := degradedObservation, calls := s.2.2 }
  else
    { scores := s.1
      overallFeedback :=
        if isErrorReply (completion (feedbackPrompt transcript)) then failedFeedback
        else completion (feedbackPrompt transcript)
      observation :=
        if isErrorReply (completion (observationPrompt transcript)) then failedObservation
        else completion (observationPrompt transcript)
      calls := s.2.2 ++ [feedbackPrompt transcript, observationPrompt transcript] }

/-- Outcome of the transcription capability as observed by POST: the
transcript text, an `OpenAI.APIError` with its HTTP status and message, or
any other thrown error with its message. -/
inductive TransOutcome where
  | success (text : String)
  | apiError (status : Nat) (message : String)
  | otherFailure (message : String)
deriving DecidableEq

/-- A JSON response of the route: either the 200 analysis payload or an
error payload with HTTP status, `error` string and optional `details`. -/
inductive ApiResponse where
  | ok (transcript : String) (scores : List (String × Int))
      (overallFeedback : String) (observation : String)
  | err (status : Nat) (errorMsg : String) (details : Option String)
deriving DecidableEq

/-- Shallow embedding of the POST handler of
src/app/api/analyze-call/route.ts: key check, upload check, transcription
with its two failure branches, then the scoring/summarizing analysis. The
second component lists every prompt sent to the completion capability. -/
def POSTmodel (apiKeyPresent : Bool) (audioFile : Option String)
    (transcribe : String → TransOutcome) (completion : String → String) :
    ApiResponse × List String :=
  if apiKeyPresent = false then
    (ApiResponse.err 500 ("Server configuration error. OpenAI API key is missing.") none, [])
  else
    match audioFile with
    | none => (ApiResponse.err 400 ("No audio file uploaded.") none, [])
    | some audio =>
      match transcribe audio with
      | TransOutcome.success transcript =>
        let r := runAnalysis completion transcript
        (ApiResponse.ok transcript r.scores r.overallFeedback r.observation, r.calls)
      | TransOutcome.apiError status msg =>
        if status = 429 then
          (ApiResponse.err 429
            ("OpenAI API quota exceeded during transcription. Please check your billing.")
            (some msg), [])
        else
          (ApiResponse.err 500 ("Audio transcription failed.") (some msg), [])
      | TransOutcome.otherFailure msg =>
        (ApiResponse.err 500 ("Audio transcription failed.") (some msg), [])

lemma mem_of_isPrefixL {p l : List Char} (h : isPrefixL p l = true) {c : Char}
    (hc : c ∈ p) : c ∈ l := by
  induction p generalizing l with
  | nil => simp at hc
  | cons a p ih =>
    cases l with
    | nil => simp [isPrefixL] at h
    | cons b l =>
      simp only [isPrefixL, Bool.and_eq_true, beq_iff_eq] at h
      rcases List.mem_cons.mp hc with rfl | hc
      · exact h.1 ▸ List.mem_cons_self _ _
      · exact List.mem_cons_of_mem _ (ih h.2 hc)

lemma mem_of_containsSub {hay pat : List Char} (h : containsSub hay pat = true)
    {c : Char} (hc : c ∈ pat) : c ∈ hay := by
  induction hay with
  | nil =>
    simp only [containsSub, List.isEmpty_iff] at h
    subst h
    simp at hc
  | cons a rest ih =>
    simp only [containsSub, Bool.or_eq_true] at h
    rcases h with h | h
    · exact mem_of_isPrefixL h hc
    · exact List.mem_cons_of_mem _ (ih h)

lemma ofNat_digit_isDigit (k : Nat) (h : k < 10) :
    (Char.ofNat (48 + k)).isDigit = true := by
  interval_cases k <;> decide

lemma toDigitsCore_mem (fuel n : Nat) (acc : List Char) (c : Char)
    (h : c ∈ toDigitsCore fuel n acc) : c ∈ acc ∨ c.isDigit = true := by
  induction fuel generalizing n acc with
  | zero => exact Or.inl h
  | succ fuel ih =>
    unfold toDigitsCore at h
    split at h
    · rcases List.mem_cons.mp h with h | h
      · exact Or.inr (h ▸ ofNat_digit_isDigit (n % 10) (Nat.mod_lt _ (by omega)))
      · exact Or.inl h
    · rcases ih (n / 10) _ h with h | h
      · rcases List.mem_cons.mp h with h | h
        · exact Or.inr (h ▸ ofNat_digit_isDigit (n % 10) (Nat.mod_lt _ (by omega)))
        · exact Or.inl h
      · exact Or.inr h

lemma toDigitsCore_ne_nil (fuel n : Nat) (acc : List Char)
    (h : acc ≠ [] ∨ fuel ≠ 0) : toDigitsCore fuel n acc ≠ [] := by
  induction fuel generalizing n acc with
  | zero => simpa using h
  | succ fuel ih =>
    unfold toDigitsCore
    split
    · simp
    · exact ih (n / 10) _ (Or.inl (by simp))

lemma natToDecimal_ne_nil (n : Nat) : natToDecimal n ≠ [] :=
  toDigitsCore_ne_nil _ _ _ (Or.inr (by omega))

lemma natToDecimal_all_digits {n : Nat} {c : Char} (hc : c ∈ natToDecimal n) :
    c.isDigit = true := by
  rcases toDigitsCore_mem _ _ _ _ hc with h | h
  · simp at h
  · exact h

lemma isDigit_of_toLower (c : Char) (h : (Char.toLower c).isDigit = true) :
    c.isDigit = true := by
  rw [show Char.toLower c = if c.toNat ≥ 65 ∧ c.toNat ≤ 90 then
      Char.ofNat (c.toNat + 32) else c from rfl] at h
  split at h
  · rename_i hc
    have hfalse : (Char.ofNat (c.toNat + 32)).isDigit = false := by
      have h97 : 97 ≤ c.toNat + 32 := by omega
      have h122 : c.toNat + 32 ≤ 122 := by omega
      set m := c.toNat + 32 with hm
      interval_cases m <;> decide
    rw [hfalse] at h
    exact absurd h (by simp)
  · exact h

lemma lowerStr_no_digits {t : String} (h : hasNoDigits t.data = true) {c : Char}
    (hc : c ∈ lowerStr t) : c.isDigit = false := by
  unfold lowerStr at hc
  rcases List.mem_map.mp hc with ⟨d, hd, rfl⟩
  have hdd : d.isDigit = false := by
    simpa using List.all_eq_true.mp h d hd
  cases hlow : (Char.toLower d).isDigit
  · rfl
  · rw [isDigit_of_toLower d hlow] at hdd
    exact absurd hdd (by simp)

lemma firstIntMatch_eq_none {l : List Char} (h : ∀ c ∈ l, c.isDigit = false) :
    firstIntMatch l = none := by
  induction l with
  | nil => rfl
  | cons c rest ih =>
    unfold firstIntMatch
    have h1 : ¬(c.isDigit = true) := by simp [h c (List.mem_cons_self c rest)]
    rw [if_neg h1]
    have h2 : ¬((c == '-' && headIsDigit rest) = true) := by
      cases rest with
      | nil => simp [headIsDigit]
      | cons d rest => simp [headIsDigit, h d (by simp)]
    rw [if_neg h2]
    exact ih fun d hd => h d (List.mem_cons_of_mem _ hd)

lemma parseNumericScore_numeric {t : String} {tok : List Char}
    (hne : isErrorReply t = false) (hm : firstIntMatch t.data = some tok)
    (w : Nat) (k : InputType) :
    parseNumericScore t w k =
      (match k with
        | InputType.PASS_FAIL => if 0 < parseIntTok tok then (w : Int) else 0
        | InputType.SCORE => max 0 (min (parseIntTok tok) (w : Int))) := by
  unfold parseNumericScore
  rw [if_neg (by simp [hne]), hm]

/-- Claim C1: for every reply text, every positive weight and every input
kind, `parseNumericScore` yields an integer score between 0 and the weight. -/
theorem parseNumericScore_bounded (t : String) (w : Nat) (k : InputType)
    (hw : 0 < w) :
    0 ≤ parseNumericScore t w k ∧ parseNumericScore t w k ≤ (w : Int) := by
  unfold parseNumericScore
  repeat' split
  all_goals exact ⟨by omega, by omega⟩

/-- Witness for C1 at a concrete reply, weight and kind. -/
theorem parseNumericScore_bounded_witness :
    0 < 5 ∧ (0 ≤ parseNumericScore ("7 points") 5 InputType.SCORE ∧
      parseNumericScore ("7 points") 5 InputType.SCORE ≤ (5 : Int)) :=
  ⟨by decide, parseNumericScore_bounded ("7 points") 5 InputType.SCORE (by decide)⟩

/-- Claim C2 counterexample: the reply `"2 18"` contains the integer 18, yet
with weight 15 and kind SCORE the parser returns 2 (the first number), not
`clamp(18, 0, 15) = 15`; and the reply `"ERROR_ 18"` contains 18 as its first
integer, yet returns 0. So `parser(text containing s, w, SCORE)` does not
equal `clamp(s, 0, w)` for every text containing `s`. -/
theorem parseNumericScore_contains_clamp_cex :
    containsSub (("2 18").data) (("18").data) = true ∧
    parseNumericScore ("2 18") 15 InputType.SCORE = 2 ∧
    ((2 : Int) ≠ min (max 18 0) 15) ∧
    containsSub (("ERROR_ 18").data) (("18").data) = true ∧
    firstIntVal ("ERROR_ 18") = some 18 ∧
    parseNumericScore ("ERROR_ 18") 15 InputType.SCORE = 0 ∧
    ((0 : Int) ≠ min (max 18 0) 15) :=
  ⟨by decide, by decide, by decide, by decide, by decide, by decide, by decide⟩

/-- Claim C2 (amended): for every reply text that is not error-flagged and
whose first (leftmost) signed-integer substring parses to `s`, SCORE parsing
yields exactly `clamp(s, 0, w) = min(max(s, 0), w)`; in particular weight 15
with reply `"Score: 18"` yields 15. -/
theorem parseNumericScore_score_clamps_first (t : String) (w : Nat) (s : Int)
    (hne : isErrorReply t = false) (hs : firstIntVal t = some s) :
    parseNumericScore t w InputType.SCORE = min (max s 0) (w : Int) := by
  unfold firstIntVal at hs
  rcases Option.map_eq_some'.mp hs with ⟨tok, hm, rfl⟩
  rw [parseNumericScore_numeric hne hm]
  dsimp only
  omega

/-- Witness for amended C2: the scenario weight 15, reply `"Score: 18"`,
result 15. -/
theorem parseNumericScore_score_clamps_first_witness :
    isErrorReply ("Score: 18") = false ∧ firstIntVal ("Score: 18") = some 18 ∧
    parseNumericScore ("Score: 18") 15 InputType.SCORE = min (max (18 : Int) 0) 15 ∧
    min (max (18 : Int) 0) 15 = 15 :=
  ⟨by decide, by decide,
    parseNumericScore_score_clamps_first ("Score: 18") 15 18 (by decide) (by decide),
    by decide⟩

/-- Claim C3: for PASS_FAIL, a strictly positive parsed candidate yields the
full weight and a zero-or-negative candidate yields 0; and for every reply
text whatsoever the PASS_FAIL result is either 0 or the full weight. -/
theorem parseNumericScore_passfail_binary (t : String) (w : Nat) (s : Int)
    (hw : 0 < w) :
    (isErrorReply t = false → firstIntVal t = some s →
      ((0 < s → parseNumericScore t w InputType.PASS_FAIL = (w : Int)) ∧
        (s ≤ 0 → parseNumericScore t w InputType.PASS_FAIL = 0))) ∧
    (parseNumericScore t w InputType.PASS_FAIL = 0 ∨
      parseNumericScore t w InputType.PASS_FAIL = (w : Int)) := by
  constructor
  · intro hne hs
    unfold firstIntVal at hs
    rcases Option.map_eq_some'.mp hs with ⟨tok, hm, rfl⟩
    rw [parseNumericScore_numeric hne hm]
    dsimp only
    constructor
    · intro h
      rw [if_pos h]
    · intro h
      rw [if_neg (by omega)]
  · unfold parseNumericScore
    repeat' split
    all_goals simp_all

/-- Witness for C3: the scenario weight 5, reply `"-3"`, result 0. -/
theorem parseNumericScore_passfail_binary_witness :
    0 < 5 ∧ isErrorReply ("-3") = false ∧ firstIntVal ("-3") = some (-3) ∧
    parseNumericScore ("-3") 5 InputType.PASS_FAIL = 0 :=
  ⟨by decide, by decide, by decide,
    ((parseNumericScore_passfail_binary ("-3") 5 (-3) (by decide)).1
      (by decide) (by decide)).2 (by decide)⟩

/-- Claim C4 counterexample: the digit-free reply `"yes fail"` contains
`"fail"` and not `"pass"`, yet PASS_FAIL parsing with weight 5 returns 5 (the
`"yes"` keyword is checked first), not 0; and the digit-free reply
`"ERROR_pass"` contains `"pass"` yet returns 0 (the error guard fires first).
So the claimed pass/fail/neither trichotomy fails on the code. -/
theorem parseNumericScore_keyword_cex :
    hasNoDigits (("yes fail").data) = true ∧
    containsSub (lowerStr ("yes fail")) (("fail").data) = true ∧
    containsSub (lowerStr ("yes fail")) (("pass").data) = false ∧
    parseNumericScore ("yes fail") 5 InputType.PASS_FAIL = 5 ∧ ((5 : Int) ≠ 0) ∧
    hasNoDigits (("ERROR_pass").data) = true ∧
    containsSub (lowerStr ("ERROR_pass")) (("pass").data) = true ∧
    parseNumericScore ("ERROR_pass") 5 InputType.PASS_FAIL = 0 ∧ ((0 : Int) ≠ 5) :=
  ⟨by decide, by decide, by decide, by decide, by decide, by decide, by decide,
    by decide, by decide⟩

/-- Claim C4 (amended): for every non-error-flagged PASS_FAIL reply with no
digit characters, the result is the full weight when the lowercased text
contains `"pass"` or `"yes"`, and 0 otherwise (in particular when it contains
`"fail"`, `"no"`, or none of the keywords). -/
theorem parseNumericScore_keyword_fallback (t : String) (w : Nat) (hw : 0 < w)
    (hne : isErrorReply t = false) (hnd : hasNoDigits t.data = true) :
    parseNumericScore t w InputType.PASS_FAIL =
      (if containsSub (lowerStr t) (("pass").data)
          || containsSub (lowerStr t) (("yes").data)
        then (w : Int) else 0) := by
  have hnod : ∀ c ∈ t.data, c.isDigit = false := by
    intro c hc
    simpa using List.all_eq_true.mp hnd c hc
  have hlow : ∀ c ∈ lowerStr t, c.isDigit = false :=
    fun c hc => lowerStr_no_digits hnd hc
  have hwstr : containsSub (lowerStr t) (natToDecimal w) = false := by
    cases hcon : containsSub (lowerStr t) (natToDecimal w)
    · rfl
    · obtain ⟨c, hcm⟩ := List.exists_mem_of_ne_nil _ (natToDecimal_ne_nil w)
      have hmem := mem_of_containsSub hcon hcm
      have hd := natToDecimal_all_digits hcm
      rw [hlow c hmem] at hd
      exact absurd hd (by simp)
  have hzero : containsSub (lowerStr t) (("0").data) = false := by
    cases hcon : containsSub (lowerStr t) (("0").data)
    · rfl
    · have hmem : ('0' : Char) ∈ lowerStr t := mem_of_containsSub hcon (by decide)
      have := hlow _ hmem
      exact absurd this (by decide)
  unfold parseNumericScore
  rw [if_neg (by simp [hne]), firstIntMatch_eq_none hnod]
  dsimp only
  rw [hwstr, hzero]
  simp only [Bool.or_false]
  split
  · rfl
  · split <;> rfl

/-- Witness for amended C4 at the concrete digit-free reply `"no no"`:
contains `"no"` and neither `"pass"` nor `"yes"`, so the result is 0. -/
theorem parseNumericScore_keyword_fallback_witness :
    0 < 5 ∧ isErrorReply ("no no") = false ∧ hasNoDigits (("no no").data) = true ∧
    parseNumericScore ("no no") 5 InputType.PASS_FAIL =
      (if containsSub (lowerStr ("no no")) (("pass").data)
          || containsSub (lowerStr ("no no")) (("yes").data)
        then (5 : Int) else 0) ∧
    (if containsSub (lowerStr ("no no")) (("pass").data)
        || containsSub (lowerStr ("no no")) (("yes").data)
      then (5 : Int) else 0) = 0 :=
  ⟨by decide, by decide, by decide,
    parseNumericScore_keyword_fallback ("no no") 5 (by decide) (by decide) (by decide),
    by decide⟩

/-- Claim C5: both error sentinel replies parse to 0 for every positive
weight and every input kind. -/
theorem parseNumericScore_error_sentinels (w : Nat) (k : InputType)
    (hw : 0 < w) :
    parseNumericScore ("ERROR_QUOTA") w k = 0 ∧
      parseNumericScore ("ERROR_API") w k = 0 := by
  constructor <;> (unfold parseNumericScore; rw [if_pos (by decide)])

/-- Witness for C5 at weight 7 and kind SCORE. -/
theorem parseNumericScore_error_sentinels_witness :
    0 < 7 ∧ parseNumericScore ("ERROR_QUOTA") 7 InputType.SCORE = 0 ∧
      parseNumericScore ("ERROR_API") 7 InputType.SCORE = 0 :=
  ⟨by decide, parseNumericScore_error_sentinels 7 InputType.SCORE (by decide)⟩

/-- Claim C6: whenever the reply is not error-flagged and its first
(leftmost) signed-integer substring parses to `s`, the result of
`parseNumericScore` is a function of `s`, the weight and the kind alone —
later numbers in the text never influence the result. -/
theorem parseNumericScore_first_int_decides (t : String) (w : Nat)
    (k : InputType) (s : Int) (hne : isErrorReply t = false)
    (hs : firstIntVal t = some s) :
    parseNumericScore t w k =
      (match k with
        | InputType.PASS_FAIL => if 0 < s then (w : Int) else 0
        | InputType.SCORE => max 0 (min s (w : Int))) := by
  unfold firstIntVal at hs
  rcases Option.map_eq_some'.mp hs with ⟨tok, hm, rfl⟩
  exact parseNumericScore_numeric hne hm w k

/-- Witness for C6: in `"7 and 2"` only the first number 7 matters; the
SCORE result with weight 5 is `max 0 (min 7 5) = 5`. -/
theorem parseNumericScore_first_int_decides_witness :
    isErrorReply ("7 and 2") = false ∧ firstIntVal ("7 and 2") = some 7 ∧
    parseNumericScore ("7 and 2") 5 InputType.SCORE =
      (match InputType.SCORE with
        | InputType.PASS_FAIL => if 0 < (7 : Int) then (5 : Int) else 0
        | InputType.SCORE => max 0 (min (7 : Int) (5 : Int))) ∧
    max 0 (min (7 : Int) (5 : Int)) = 5 :=
  ⟨by decide, by decide,
    parseNumericScore_first_int_decides ("7 and 2") 5 InputType.SCORE 7
      (by decide) (by decide),
    by decide⟩

lemma scoringStep_fst_map (completion : String → String) (transcript : String)
    (acc : List (String × Int) × Bool × List String)
    (p : CallEvaluationParameter) :
    (scoringStep completion transcript acc p).1.map Prod.fst
      = acc.1.map Prod.fst ++ [p.key] := by
  unfold scoringStep
  split
  · simp
  · split <;> simp

lemma foldl_scoringStep_keys (completion : String → String) (transcript : String)
    (ps : List CallEvaluationParameter)
    (acc : List (String × Int) × Bool × List String) :
    ((ps.foldl (scoringStep completion transcript) acc).1).map Prod.fst
      = acc.1.map Prod.fst ++ ps.map CallEvaluationParameter.key := by
  induction ps generalizing acc with
  | nil => simp
  | cons p ps ih =>
    rw [List.foldl_cons, ih, scoringStep_fst_map]
    simp

/-- Claim C7: for every behavior of the completion capability and every
transcript, the scores list of the analysis carries exactly the ten rubric
keys, in rubric order — no parameter is ever skipped. -/
theorem runAnalysis_scores_cover_rubric (completion : String → String)
    (transcript : String) :
    (runAnalysis completion transcript).scores.map Prod.fst
      = callEvaluationParameters.map CallEvaluationParameter.key := by
  simp only [runAnalysis]
  split <;>
    simpa using foldl_scoringStep_keys completion transcript
      callEvaluationParameters ([], false, [])

/-- Claim C8: a full request with a valid upload whose completion capability
signals quota exhaustion from the first scoring call on yields a 200 response
with all ten rubric keys scored 0 and the fixed degraded-mode notices, and
the only completion calls made are the ten scoring prompts (no summary
calls). -/
theorem POST_quota_degraded (audio transcript : String) :
    POSTmodel true (some audio) (fun _ => TransOutcome.success transcript)
        (fun _ => "ERROR_QUOTA")
      = (ApiResponse.ok transcript
          [("greeting", 0), ("collectionUrgency", 0), ("rebuttalCustomerHandling", 0),
            ("callEtiquette", 0), ("callDisclaimer", 0), ("correctDisposition", 0),
            ("callClosing", 0), ("fatalIdentification", 0), ("fatalTapeDiscloser", 0),
            ("fatalToneLanguage", 0)]
          degradedFeedback degradedObservation,
        callEvaluationParameters.map (fun p => scorePrompt p transcript)) := rfl

/-- Claim C9: a transcription failure of either kind aborts the request with
an error response carrying the upstream message and with no completion call
made (hence no scores map); a successful transcription always produces the
200 analysis response, whatever the completion capability does. -/
theorem POST_transcription_failure_aborts (audio : String)
    (transcribe : String → TransOutcome) (completion : String → String) :
    (∀ status msg, transcribe audio = TransOutcome.apiError status msg →
      ∃ st e, POSTmodel true (some audio) transcribe completion
        = (ApiResponse.err st e (some msg), [])) ∧
    (∀ msg, transcribe audio = TransOutcome.otherFailure msg →
      POSTmodel true (some audio) transcribe completion
        = (ApiResponse.err 500 ("Audio transcription failed.") (some msg), [])) ∧
    (∀ transcript, transcribe audio = TransOutcome.success transcript →
      ∃ scores fb ob calls, POSTmodel true (some audio) transcribe completion
        = (ApiResponse.ok transcript scores fb ob, calls)) := by
  refine ⟨?_, ?_, ?_⟩
  · intro status msg h
    by_cases h429 : status = 429
    · subst h429
      exact ⟨429,
        ("OpenAI API quota exceeded during transcription. Please check your billing."),
        by simp [POSTmodel, h]⟩
    · exact ⟨500, ("Audio transcription failed."), by simp [POSTmodel, h, h429]⟩
  · intro msg h
    simp [POSTmodel, h]
  · intro transcript h
    refine ⟨(runAnalysis completion transcript).scores,
      (runAnalysis completion transcript).overallFeedback,
      (runAnalysis completion transcript).observation,
      (runAnalysis completion transcript).calls, ?_⟩
    simp [POSTmodel, h]

/-- Witness for C9 at concrete transcription outcomes: an API error and a
generic error each abort with the upstream message and zero completion
calls, and a successful transcription yields the 200 response. -/
theorem POST_transcription_failure_aborts_witness :
    (∃ st e, POSTmodel true (some ("call.mp3"))
        (fun _ => TransOutcome.apiError 429 ("quota exhausted")) (fun _ => "5")
      = (ApiResponse.err st e (some ("quota exhausted")), [])) ∧
    (POSTmodel true (some ("call.mp3"))
        (fun _ => TransOutcome.otherFailure ("upstream boom")) (fun _ => "5")
      = (ApiResponse.err 500 ("Audio transcription failed.")
          (some ("upstream boom")), [])) ∧
    (∃ scores fb ob calls, POSTmodel true (some ("call.mp3"))
        (fun _ => TransOutcome.success ("hello call")) (fun _ => "5")
      = (ApiResponse.ok ("hello call") scores fb ob, calls)) := by
  refine ⟨?_, ?_, ?_⟩
  · exact (POST_transcription_failure_aborts ("call.mp3")
      (fun _ => TransOutcome.apiError 429 ("quota exhausted"))
      (fun _ => "5")).1 429 ("quota exhausted") rfl
  · exact (POST_transcription_failure_aborts ("call.mp3")
      (fun _ => TransOutcome.otherFailure ("upstream boom"))
      (fun _ => "5")).2.1 ("upstream boom") rfl
  · exact (POST_transcription_failure_aborts ("call.mp3")
      (fun _ => TransOutcome.success ("hello call"))
      (fun _ => "5")).2.2 ("hello call") rfl

/-- Claim C10: the error-sentinel check is a prefix test: every reply text
starting with `"ERROR_"` — not only the exact sentinels — parses to 0 for
every weight and every input kind. -/
theorem parseNumericScore_error_prefix (t : String) (w : Nat) (k : InputType)
    (h : isErrorReply t = true) : parseNumericScore t w k = 0 := by
  unfold parseNumericScore
  rw [if_pos h]

/-- Witness for C10 at the non-sentinel reply `"ERROR_ pass 7"`, which
contains both a digit and the keyword `"pass"` yet scores 0. -/
theorem parseNumericScore_error_prefix_witness :
    isErrorReply ("ERROR_ pass 7") = true ∧
    (("ERROR_ pass 7") ≠ "ERROR_QUOTA" ∧ ("ERROR_ pass 7") ≠ "ERROR_API") ∧
    containsSub (lowerStr ("ERROR_ pass 7")) (("pass").data) = true ∧
    parseNumericScore ("ERROR_ pass 7") 5 InputType.PASS_FAIL = 0 :=
  ⟨by decide, ⟨by decide, by decide⟩, by decide,
    parseNumericScore_error_prefix ("ERROR_ pass 7") 5 InputType.PASS_FAIL (by decide)⟩

end CallFeedback
